import Mathlib

/-
Verification of the Quantitative Signal Engine of the Market_Trader
repository against its natural-language specification.

The Python sources are shallowly embedded:
* pandas Series / DataFrames become Lean lists; a NaN-able column entry is
  an `Option ℝ` (with `none` playing the role of `np.nan`);
* machine floats become exact reals (float literals such as `0.1`, `1e-9`
  are read as the corresponding rationals);
* scipy's `norm.cdf` becomes `normCdf`, the integral of the standard
  Gaussian density;
* functions that can produce `np.nan` as a sentinel return `Option ℝ`.

Embedded sources:
* `Calculations.*`  — src/FINAL/functions/calculations.py
* `TradeBot.*`      — src/FINAL/TradeBot_V1.py
* `OptionsLogic.*`  — src/FINAL/functions/options_logic.py
-/

section NormCdf

open MeasureTheory ProbabilityTheory

/-- Standard normal cumulative distribution function (the model of
`scipy.stats.norm.cdf`): the integral of the standard Gaussian density
over `(-∞, x]`. -/
noncomputable def normCdf (x : ℝ) : ℝ :=
  ∫ t in Set.Iic x, gaussianPDFReal 0 1 t

lemma normCdf_strictMono : StrictMono normCdf := by
  intro a b hab
  have hint : Integrable (gaussianPDFReal 0 1) := integrable_gaussianPDFReal 0 1
  have h1 : normCdf b - normCdf a = ∫ t in a..b, gaussianPDFReal 0 1 t :=
    intervalIntegral.integral_Iic_sub_Iic hint.integrableOn hint.integrableOn
  have h2 : 0 < ∫ t in a..b, gaussianPDFReal 0 1 t := by
    apply intervalIntegral.intervalIntegral_pos_of_pos _ _ hab
    · exact hint.intervalIntegrable
    · intro x
      exact gaussianPDFReal_pos 0 1 x one_ne_zero
  linarith

lemma normCdf_nonneg (x : ℝ) : 0 ≤ normCdf x := by
  apply setIntegral_nonneg measurableSet_Iic
  intro t _
  exact gaussianPDFReal_nonneg 0 1 t

lemma normCdf_le_one (x : ℝ) : normCdf x ≤ 1 := by
  have h := setIntegral_le_integral (μ := volume) (s := Set.Iic x)
    (integrable_gaussianPDFReal 0 1)
    (Filter.Eventually.of_forall (gaussianPDFReal_nonneg 0 1))
  calc normCdf x ≤ ∫ t, gaussianPDFReal 0 1 t := h
    _ = 1 := integral_gaussianPDFReal_eq_one 0 one_ne_zero

lemma normCdf_clip (x : ℝ) : min (max (normCdf x) 0) 1 = normCdf x := by
  rw [max_eq_left (normCdf_nonneg x), min_eq_left (normCdf_le_one x)]

end NormCdf

namespace Calculations

/-- `calculate_pop` from src/FINAL/functions/calculations.py (lines 276-307).
Returns `none` where the Python function returns `np.nan`.  Note that the
`d1` formula uses `np.log(current_price / strike_price)` — the strike, not
the breakeven — and that the `premium` argument is never used. -/
noncomputable def calculate_pop (option_type : String)
    (strike_price premium current_price implied_volatility dte : ℝ) : Option ℝ :=
  if dte ≤ 0 ∨ implied_volatility ≤ 0 ∨ current_price ≤ 0 ∨ strike_price ≤ 0 then none
  else
    let time_to_expiration_years := dte / 365
    let r : ℝ := 0.05
    let q : ℝ := 0
    let sigma_sqrt_t := implied_volatility * Real.sqrt time_to_expiration_years
    if sigma_sqrt_t = 0 then none
    else
      let d1 := (Real.log (current_price / strike_price)
          + (r - q + 0.5 * implied_volatility ^ 2) * time_to_expiration_years) / sigma_sqrt_t
      let d2 := d1 - sigma_sqrt_t
      let pop : Option ℝ :=
        if option_type = "call" then some (normCdf d2)
        else if option_type = "put" then some (normCdf (-d2))
        else none
      pop.map fun p => min (max p 0) 1

end Calculations

namespace TradeBot

/-- `calculate_pop` from src/FINAL/TradeBot_V1.py (lines 1561-1597).  This
variant computes the breakeven price and uses it inside `d1`, with a 1%
risk-free rate, and does not clip the result.  The source has no guard on
the breakeven: `np.log(current_price / breakeven_price)` is NaN — and the
function returns `np.nan` — unless that ratio is a positive real, which
fails whenever the breakeven is non-positive (a put premium at or above
the strike, or a division by a zero breakeven) or the current price is
non-positive.  That NaN path is the `none` sentinel here. -/
noncomputable def calculate_pop (option_type : String)
    (strike_price premium current_price implied_volatility dte : ℝ) : Option ℝ :=
  if dte ≤ 0 ∨ implied_volatility ≤ 0 then none
  else
    let time_to_expiration_years := dte / 365
    if option_type = "call" ∨ option_type = "put" then
      let breakeven_price :=
        if option_type = "call" then strike_price + premium else strike_price - premium
      if current_price / breakeven_price ≤ 0 then none
      else
        let r : ℝ := 0.01
        let q : ℝ := 0
        let d1_pop := (Real.log (current_price / breakeven_price)
            + (r - q + 0.5 * implied_volatility ^ 2) * time_to_expiration_years)
            / (implied_volatility * Real.sqrt time_to_expiration_years)
        let d2_pop := d1_pop - implied_volatility * Real.sqrt time_to_expiration_years
        if option_type = "call" then some (normCdf d2_pop) else some (normCdf (-d2_pop))
    else none

end TradeBot

namespace Calculations

/-- The multi-interval input of `analyze_market_trend`: the closing-price
series (if present) for each of the four weighted intervals
5m / 15m / 30m / 1h.  Keys of the Python dict outside these four are
ignored by the source (`valid_intervals` keeps only keys of `weights`). -/
structure TrendData where
  m5 : Option (List ℝ)
  m15 : Option (List ℝ)
  m30 : Option (List ℝ)
  h1 : Option (List ℝ)

/-- Percent change between the first and last close of one interval
(`analyze_market_trend`, lines 53-66): division-by-zero is mapped to 0. -/
noncomputable def price_change_pct (closes : List ℝ) : ℝ :=
  match closes with
  | [] => 0
  | first_price :: rest =>
    let last_price := List.getLastD rest first_price
    if first_price = 0 then 0 else (last_price - first_price) / first_price * 100

/-- Per-interval score (`analyze_market_trend`, lines 69-78): +1 if the
percent change exceeds 0.1, −1 if it is below −0.1, else 0. -/
noncomputable def interval_score (closes : List ℝ) : ℝ :=
  if 0.1 < price_change_pct closes then 1
  else if price_change_pct closes < -0.1 then -1
  else 0

/-- Contribution of one interval to the weighted trend score: an absent
interval or one with fewer than two closes is skipped (`continue`). -/
noncomputable def interval_contrib (weight : ℝ) (d : Option (List ℝ)) : ℝ :=
  match d with
  | none => 0
  | some closes => if 2 ≤ closes.length then interval_score closes * weight else 0

/-- `trend_score` accumulated by `analyze_market_trend` (line 85):
the sum of `interval_score * weight` over the usable intervals, with
weights 0.4 / 0.3 / 0.2 / 0.1.  Note: not divided by anything. -/
noncomputable def trend_score (td : TrendData) : ℝ :=
  interval_contrib 0.4 td.m5 + interval_contrib 0.3 td.m15
    + interval_contrib 0.2 td.m30 + interval_contrib 0.1 td.h1

/-- The final label of `analyze_market_trend` (lines 88-93): compares the
raw `trend_score` with ±0.1. -/
noncomputable def trend_direction (td : TrendData) : String :=
  if 0.1 < trend_score td then "Bullish"
  else if trend_score td < -0.1 then "Bearish"
  else "Neutral"

/-- `max_possible_score` (line 96): the sum of the weights of the intervals
that are present with at least two closes. -/
noncomputable def max_possible_score (td : TrendData) : ℝ :=
  (match td.m5 with | none => 0 | some c => if 2 ≤ c.length then (0.4 : ℝ) else 0)
    + (match td.m15 with | none => 0 | some c => if 2 ≤ c.length then (0.3 : ℝ) else 0)
    + (match td.m30 with | none => 0 | some c => if 2 ≤ c.length then (0.2 : ℝ) else 0)
    + (match td.h1 with | none => 0 | some c => if 2 ≤ c.length then (0.1 : ℝ) else 0)

/-- Confidence returned by `analyze_market_trend` (lines 97-100). -/
noncomputable def trend_confidence (td : TrendData) : ℝ :=
  if max_possible_score td = 0 then 0
  else min (|trend_score td| / max_possible_score td * 100) 100

end Calculations

/-- Written from the words of claim C3 / spec §4.5 (for comparison with the
code): the weighted score Σ(signal·weight) divided by Σ(weight of the
resolutions actually used). -/
noncomputable def claimWeightedScore (td : Calculations.TrendData) : ℝ :=
  Calculations.trend_score td / Calculations.max_possible_score td

/-- One OHLCV bar as consumed by the VWAP computations (High, Low, Close,
Volume columns); the Volume entry may be NaN (`none`). -/
structure Bar where
  high : ℝ
  low : ℝ
  close : ℝ
  volume : Option ℝ

/-- Running cumulative sums (`Series.cumsum`). -/
noncomputable def cumsum (l : List ℝ) : List ℝ :=
  (l.scanl (· + ·) 0).drop 1

/-- Forward fill (`Series.ffill`): each NaN entry takes the most recent
preceding valid value, if any. -/
noncomputable def ffill (l : List (Option ℝ)) : List (Option ℝ) :=
  (l.foldl (fun (acc : List (Option ℝ) × Option ℝ) x =>
      match x with
      | some v => (acc.1 ++ [some v], some v)
      | none => (acc.1 ++ [acc.2], acc.2)) ([], none)).1

/-- Backward fill (`Series.bfill`). -/
noncomputable def bfill (l : List (Option ℝ)) : List (Option ℝ) :=
  (ffill l.reverse).reverse

namespace Calculations

/-- `calculate_vwap` from src/FINAL/functions/calculations.py (lines
156-172), restricted to its main branch (all four required columns
present); returns the VWAP column.  The Volume column is coerced with
`fillna(0)`; a zero cumulative volume becomes NaN (`replace(0, np.nan)`),
the division adds `1e-10` to the denominator, and NaNs are forward- then
backward-filled. -/
noncomputable def calculate_vwap (df : List Bar) : List (Option ℝ) :=
  let vol := df.map fun b => b.volume.getD 0
  let typicalPrice := df.map fun b => (b.high + b.low + b.close) / 3
  let price_volume_weighted := List.zipWith (· * ·) typicalPrice vol
  let cumVol := cumsum vol
  let cumVolPrice := cumsum price_volume_weighted
  let vwap := List.zipWith
    (fun cvp cv => if cv = 0 then none else some (cvp / (cv + 1e-10)))
    cumVolPrice cumVol
  bfill (ffill vwap)

end Calculations

/-- One OHLCV bar for the TradeBot_V1 VWAP (its Volume column was already
cast to float with no NaN handling). -/
structure BarV1 where
  high : ℝ
  low : ℝ
  close : ℝ
  volume : ℝ

namespace TradeBot

/-- `calculate_vwap` from src/FINAL/TradeBot_V1.py (lines 857-872); unlike
the calculations.py version there is no `+ 1e-10` in the division. -/
noncomputable def calculate_vwap (df : List BarV1) : List (Option ℝ) :=
  let typicalPrice := df.map fun b => (b.high + b.low + b.close) / 3
  let price_volume_weighted := List.zipWith (· * ·) typicalPrice (df.map BarV1.volume)
  let cumVol := cumsum (df.map BarV1.volume)
  let cumVolPrice := cumsum price_volume_weighted
  let vwap := List.zipWith
    (fun cvp cv => if cv = 0 then none else some (cvp / cv))
    cumVolPrice cumVol
  bfill (ffill vwap)

end TradeBot

/-- Minimum of a list, seeded at its head (pandas `Series.min` of a
nonempty window; never called on `[]` by the pivot code). -/
noncomputable def listMin : List ℝ → ℝ
  | [] => 0
  | x :: xs => xs.foldl min x

/-- Maximum of a list, seeded at its head. -/
noncomputable def listMax : List ℝ → ℝ
  | [] => 0
  | x :: xs => xs.foldl max x

/-- Ascending insertion of a value into a sorted list. -/
noncomputable def insertAsc (v : ℝ) : List ℝ → List ℝ
  | [] => [v]
  | x :: xs => if v ≤ x then v :: x :: xs else x :: insertAsc v xs

/-- Ascending sort (the model of Python `sorted`). -/
noncomputable def sortAsc (l : List ℝ) : List ℝ :=
  l.foldr insertAsc []

namespace Calculations

/-- The centered rolling window of odd width `w` at position `i` of `s`
(`Series.rolling(window=w, center=True, min_periods=1)`): indices
`i − (w−1)/2 … i + (w−1)/2` clipped to the series. -/
noncomputable def rollingWindow (w : ℕ) (s : List ℝ) (i : ℕ) : List ℝ :=
  let half := (w - 1) / 2
  let lo := i - half
  let hi := min (i + half) (s.length - 1)
  (s.drop lo).take (hi + 1 - lo)

/-- The raw pivot values of `find_pivots`: entries equal to the rolling
minimum (`isMin = true`) or rolling maximum of their centered window. -/
noncomputable def pivotCandidates (isMin : Bool) (w : ℕ) (s : List ℝ) : List ℝ :=
  (List.range s.length).filterMap fun i =>
    match s.get? i with
    | none => none
    | some v =>
      let ext := if isMin then listMin (rollingWindow w s i) else listMax (rollingWindow w s i)
      if v = ext then some v else none

/-- One step of the running deduplication loop of `find_pivots` (lines
200-207 / 214-220).  The accumulator is kept reversed: its head is the most
recently accepted level.  Tolerance is 0.5% of that level, or of the series
mean when the level is 0; a candidate farther than the tolerance is
appended, otherwise it replaces the last accepted level by the average of
the two. -/
noncomputable def mergeStep (series_mean_fallback : ℝ) (acc : List ℝ) (val : ℝ) : List ℝ :=
  match acc with
  | [] => [val]
  | last :: rest =>
    let ref_price := if last = 0 then series_mean_fallback else last
    let threshold := ref_price * 0.005
    if threshold < |val - last| then val :: last :: rest
    else ((last + val) / 2) :: rest

/-- `find_pivots` from src/FINAL/functions/calculations.py (lines 175-222):
returns the deduplicated support levels (ascending) and resistance levels
(descending).  The source's `window` parameter defaults to 5. -/
noncomputable def find_pivots (s : List ℝ) (window : ℕ) : List ℝ × List ℝ :=
  if s.isEmpty then ([], [])
  else
    let w0 := if window % 2 = 0 then window + 1 else window
    let w := if w0 < 3 then 3 else w0
    if s.length < w then ([], [])
    else
      let series_mean_fallback := s.sum / s.length
      let sorted_supports := sortAsc (pivotCandidates true w s).dedup
      let sorted_resistances := (sortAsc (pivotCandidates false w s).dedup).reverse
      let unique_supports := (sorted_supports.foldl (mergeStep series_mean_fallback) []).reverse
      let unique_resistances :=
        (sorted_resistances.foldl (mergeStep series_mean_fallback) []).reverse
      (sortAsc unique_supports, (sortAsc unique_resistances).reverse)

end Calculations

/-- One step of pandas' exponentially weighted mean with `adjust=False`
and `ignore_na=False` (the state is the current mean, if any observation
was seen, and the relative weight of the old mean). -/
noncomputable def ewmStep (a : ℝ) (st : Option ℝ × ℝ) (x : Option ℝ) : Option ℝ × ℝ :=
  match st.1, x with
  | none, none => st
  | none, some v => (some v, 1)
  | some m, none => (some m, st.2 * (1 - a))
  | some m, some v =>
    let w := st.2 * (1 - a)
    (some ((w * m + a * v) / (w + a)), 1)

/-- `Series.ewm(alpha=a, adjust=False).mean()` on a NaN-able series. -/
noncomputable def ewmMean (a : ℝ) (xs : List (Option ℝ)) : List (Option ℝ) :=
  (xs.foldl (fun (acc : List (Option ℝ) × (Option ℝ × ℝ)) x =>
      let st := ewmStep a acc.2 x
      (acc.1 ++ [st.1], st)) ([], (none, 1))).1

/-- `Series.diff()`: NaN at the head, consecutive differences after. -/
noncomputable def diffSeries (l : List ℝ) : List (Option ℝ) :=
  match l with
  | [] => []
  | _ :: xs => none :: List.zipWith (fun b a => some (b - a)) xs l

/-- The first 14 entries of `rolling(window=14, min_periods=14).mean()`:
13 NaNs followed by the simple average of the first 14 entries. -/
noncomputable def smaSeed (g : List ℝ) : List (Option ℝ) :=
  List.replicate 13 none ++ [some ((g.take 14).sum / 14)]

/-- `Series.reindex(df.index).fillna(fill)`: walk the original column; a
NaN position of the template gets `fill`, a valid position consumes the
next computed value (itself defaulted to `fill` when NaN). -/
noncomputable def reindexFill : List (Option ℝ) → List (Option ℝ) → ℝ → List ℝ
  | [], _, _ => []
  | none :: rest, vs, fill => fill :: reindexFill rest vs fill
  | some _ :: rest, [], fill => fill :: reindexFill rest [] fill
  | some _ :: rest, v :: vs, fill => v.getD fill :: reindexFill rest vs fill

/-- `Series.reindex(df.index)` without filling: NaN positions of the
template stay NaN. -/
noncomputable def reindexOpt : List (Option ℝ) → List (Option ℝ) → List (Option ℝ)
  | [], _ => []
  | none :: rest, vs => none :: reindexOpt rest vs
  | some _ :: rest, [] => none :: reindexOpt rest []
  | some _ :: rest, v :: vs => v :: reindexOpt rest vs

namespace Calculations

/-- `calculate_technical_indicators` from
src/FINAL/functions/calculations.py (lines 225-274), modelled on the Close
column (a NaN entry is `none`); returns the (RSI, MACD, signal) columns. -/
noncomputable def calculate_technical_indicators (close : List (Option ℝ)) :
    List ℝ × List ℝ × List ℝ :=
  if close.isEmpty || close.all (·.isNone) then ([], [], [])
  else
    let close_prices := close.filterMap id
    if close_prices.isEmpty then ([], [], [])
    else
      let rsi :=
        if close_prices.length ≤ 14 then List.replicate close.length (50 : ℝ)
        else
          let gain := (diffSeries close_prices).map fun d =>
            match d with
            | none => (0 : ℝ)
            | some v => max v 0
          let loss := (diffSeries close_prices).map fun d =>
            match d with
            | none => (0 : ℝ)
            | some v => max (-v) 0
          let avg_gain := ewmMean (1 / 14) (smaSeed gain ++ (gain.drop 14).map some)
          let avg_loss := ewmMean (1 / 14) (smaSeed loss ++ (loss.drop 14).map some)
          let rs := List.zipWith (fun og ol =>
            match og, ol with
            | some g, some l => some (g / (if l = 0 then 1e-10 else l))
            | _, _ => none) avg_gain avg_loss
          let rsiVals := rs.map (Option.map fun v => 100 - 100 / (1 + v))
          reindexFill close rsiVals 50
      let macdPair :=
        if 26 ≤ close_prices.length then
          let ema_fast := ewmMean (2 / (12 + 1)) (close_prices.map some)
          let ema_slow := ewmMean (2 / (26 + 1)) (close_prices.map some)
          let macdVals := List.zipWith (fun f s =>
            match f, s with
            | some vf, some vs => some (vf - vs)
            | _, _ => none) ema_fast ema_slow
          let macd_line := reindexOpt close macdVals
          let signal_line := ewmMean (2 / (9 + 1)) macd_line
          (macd_line.map (·.getD 0), signal_line.map (·.getD 0))
        else (List.replicate close.length (0 : ℝ), List.replicate close.length (0 : ℝ))
      (rsi, macdPair.1, macdPair.2)

end Calculations

namespace OptionsLogic

/-- A raw option-chain row as handed to `rank_options_logic`: every column
may be NaN / absent. -/
structure OptionRow where
  strike : Option ℝ
  lastPrice : Option ℝ
  bid : Option ℝ
  ask : Option ℝ
  volume : Option ℝ
  openInterest : Option ℝ
  impliedVolatility : Option ℝ
  delta : Option ℝ

/-- A chain row after `df.dropna(subset=required_cols)`: all required
columns valid, delta still possibly NaN. -/
structure ChainRow where
  strike : ℝ
  lastPrice : ℝ
  bid : ℝ
  ask : ℝ
  volume : ℝ
  openInterest : ℝ
  impliedVolatility : ℝ
  delta : Option ℝ

/-- `df.dropna(subset=required_cols)` (options_logic.py line 53). -/
noncomputable def dropnaRequired (df : List OptionRow) : List ChainRow :=
  df.filterMap fun r =>
    match r.strike, r.lastPrice, r.bid, r.ask, r.volume, r.openInterest, r.impliedVolatility with
    | some k, some lp, some b, some a, some v, some oi, some iv =>
      some ⟨k, lp, b, a, v, oi, iv, r.delta⟩
    | _, _, _, _, _, _, _ => none

/-- `calculate_breakeven` (options_logic.py lines 21-27). -/
noncomputable def calculate_breakeven (option_type : String) (strike_price premium : ℝ) :
    Option ℝ :=
  if option_type = "call" then some (strike_price + premium)
  else if option_type = "put" then some (strike_price - premium)
  else none

/-- `calculate_intrinsic_value` (options_logic.py lines 29-35). -/
noncomputable def calculate_intrinsic_value (option_type : String)
    (strike_price current_price : ℝ) : ℝ :=
  if option_type = "call" then max 0 (current_price - strike_price)
  else if option_type = "put" then max 0 (strike_price - current_price)
  else 0

/-- `calculate_time_value` (options_logic.py lines 37-39). -/
noncomputable def calculate_time_value (last_price intrinsic_value : ℝ) : ℝ :=
  max 0 (last_price - intrinsic_value)

/-- `df['mid_price']` (options_logic.py line 70). -/
noncomputable def mid_price (r : ChainRow) : ℝ :=
  (r.bid + r.ask) / 2

/-- `df['spread_pct']` (options_logic.py line 71): note the `1e-9` added to
the denominator. -/
noncomputable def spread_pct (r : ChainRow) : ℝ :=
  (r.ask - r.bid) / (mid_price r + 1e-9) * 100

/-- `pd.cut(score, bins=[0, 0.4, 0.6, 0.75, 1.0], labels=...)` with the
pandas defaults: bins are left-open and right-closed, and a value outside
`(0, 1]` falls in no bin (NaN tier). -/
noncomputable def qualityTier (s : ℝ) : Option String :=
  if 0 < s ∧ s ≤ 0.4 then some "Poor"
  else if 0.4 < s ∧ s ≤ 0.6 then some "Fair"
  else if 0.6 < s ∧ s ≤ 0.75 then some "Good"
  else if 0.75 < s ∧ s ≤ 1 then some "Excellent"
  else none

/-- A fully scored row of the ranked table: the surviving input row plus
every derived column `rank_options_logic` attaches to the frame. -/
structure ScoredRow where
  row : ChainRow
  pop : ℝ
  intrinsic_value : ℝ
  time_value : ℝ
  breakeven : Option ℝ
  breakeven_distance_pct : ℝ
  pop_score : ℝ
  norm_volume : ℝ
  norm_oi : ℝ
  spread_score : ℝ
  liquidity_score : ℝ
  time_value_ratio : ℝ
  breakeven_score : ℝ
  value_score : ℝ
  delta_filled : ℝ
  delta_score : ℝ
  overall_score : ℝ
  quality_tier : Option String

/-- The per-row scoring of `rank_options_logic` (options_logic.py lines
77-177) given the chain-level volume / open-interest extrema.  The POP
column is `fillna(0)`-ed immediately after being computed (line 89); a NaN
delta is filled with 0.5 (line 151). -/
noncomputable def scoreRow (option_type : String) (current_price dte vmin vmax oimin oimax : ℝ)
    (r : ChainRow) : ScoredRow :=
  let pop := (Calculations.calculate_pop option_type r.strike r.lastPrice current_price
    r.impliedVolatility dte).getD 0
  let intrinsic := calculate_intrinsic_value option_type r.strike current_price
  let time_value := calculate_time_value r.lastPrice intrinsic
  let breakeven := calculate_breakeven option_type r.strike r.lastPrice
  let breakeven_distance_pct :=
    match breakeven with
    | some b => |(b - current_price) / (current_price + 1e-9) * 100|
    | none => 0
  let pop_score := pop
  let norm_volume := if vmax - vmin ≠ 0 then (r.volume - vmin) / (vmax - vmin + 1e-9) else 0.5
  let norm_oi := if oimax - oimin ≠ 0 then (r.openInterest - oimin) / (oimax - oimin + 1e-9)
    else 0.5
  let spread_score := min (max (1 - spread_pct r / 20) 0) 1
  let liquidity_score := norm_volume * 0.4 + norm_oi * 0.4 + spread_score * 0.2
  let time_value_ratio := min (max (time_value / (r.lastPrice + 1e-9)) 0) 1
  let breakeven_score := min (max (1 - |breakeven_distance_pct - 5| / 10) 0) 1
  let value_score := time_value_ratio * 0.4 + breakeven_score * 0.6
  let delta_filled := r.delta.getD 0.5
  let delta_score :=
    if option_type = "call" then
      if 0.2 ≤ delta_filled ∧ delta_filled ≤ 0.8 then 1 - |delta_filled - 0.5| / 0.5 else 0.2
    else
      if 0.2 ≤ |delta_filled| ∧ |delta_filled| ≤ 0.8 then 1 - |(|delta_filled| - 0.5)| / 0.5
      else 0.2
  let overall_score := pop_score * 0.40 + liquidity_score * 0.25 + value_score * 0.20
    + delta_score * 0.15
  ⟨r, pop, intrinsic, time_value, breakeven, breakeven_distance_pct, pop_score, norm_volume,
    norm_oi, spread_score, liquidity_score, time_value_ratio, breakeven_score, value_score,
    delta_filled, delta_score, overall_score, qualityTier overall_score⟩

/-- Insertion into a list sorted by descending overall score. -/
noncomputable def insertDesc (r : ScoredRow) : List ScoredRow → List ScoredRow
  | [] => [r]
  | x :: xs => if x.overall_score ≤ r.overall_score then r :: x :: xs else x :: insertDesc r xs

/-- `df.sort_values("Overall_Score", ascending=False)`. -/
noncomputable def sortByScoreDesc (l : List ScoredRow) : List ScoredRow :=
  l.foldr insertDesc []

/-- `rank_options_logic` from src/FINAL/functions/options_logic.py (lines
41-179): dropna on the required columns, the four hard filters, then the
scoring of every surviving row and the descending sort by overall score. -/
noncomputable def rank_options_logic (df : List OptionRow) (option_type : String)
    (current_price_for_rank dte_for_rank : ℝ) : List ScoredRow :=
  let df0 := dropnaRequired df
  if df0.isEmpty then []
  else
    let df1 := df0.filter fun r => decide (0.01 < r.lastPrice ∧ 0 < r.bid ∧ 0 < r.ask)
    let df2 := df1.filter fun r => decide (0 < r.impliedVolatility ∧ r.impliedVolatility < 5)
    let df3 := df2.filter fun r => decide (10 ≤ r.volume ∧ 50 ≤ r.openInterest)
    let df4 := df3.filter fun r => decide (spread_pct r ≤ 20)
    if df4.isEmpty then []
    else
      let vols := df4.map fun r => r.volume
      let ois := df4.map fun r => r.openInterest
      sortByScoreDesc (df4.map (scoreRow option_type current_price_for_rank dte_for_rank
        (listMin vols) (listMax vols) (listMin ois) (listMax ois)))

end OptionsLogic

namespace OptionsLogic

/-- The numeric outcome of `analyze_single_option_details`
(options_logic.py lines 181-401): the 0-100 score and the number of red
flags (the rationale strings are not modelled).  Note line 188: a missing
or NaN delta is replaced by 0.0 here, not 0.5. -/
noncomputable def analyze_single_option_score (option_type : String) (current_price dte : ℝ)
    (r : ChainRow) : ℝ × ℕ :=
  let price := r.lastPrice
  let iv := r.impliedVolatility
  let volume := r.volume
  let oi := r.openInterest
  let delta := r.delta.getD 0
  let strike := r.strike
  let pop := Calculations.calculate_pop option_type strike price current_price iv dte
  let intrinsic := calculate_intrinsic_value option_type strike current_price
  let time_value := calculate_time_value price intrinsic
  let breakeven := calculate_breakeven option_type strike price
  let breakeven_pct :=
    match breakeven with
    | some b => |b - current_price| / (current_price + 1e-9) * 100
    | none => 0
  let spread := r.ask - r.bid
  let spread_pct_single := if 0 < price then spread / (price + 1e-9) * 100 else 0
  let popPart : ℝ × ℕ :=
    match pop with
    | none => (0, 0)
    | some p =>
      if p = 0 then (0, 0)
      else if 0.55 ≤ p then (25, 0)
      else if 0.45 ≤ p then (20, 0)
      else if 0.35 ≤ p then (15, 0)
      else (5, 1)
  let volPart : ℝ × ℕ :=
    if 500 ≤ volume then (10, 0)
    else if 100 ≤ volume then (7, 0)
    else if 50 ≤ volume then (4, 0)
    else (0, 1)
  let oiPart : ℝ × ℕ :=
    if 1000 ≤ oi then (10, 0)
    else if 500 ≤ oi then (7, 0)
    else if 100 ≤ oi then (4, 0)
    else (0, 1)
  let spreadPart : ℝ × ℕ :=
    if spread_pct_single ≤ 5 then (5, 0)
    else if spread_pct_single ≤ 10 then (3, 0)
    else if spread_pct_single ≤ 15 then (1, 0)
    else (0, 1)
  let ivPart : ℝ × ℕ :=
    if 0.15 ≤ iv ∧ iv ≤ 0.6 then (15, 0)
    else if 0.6 < iv ∧ iv ≤ 1 then (10, 0)
    else if iv < 0.15 then (8, 1)
    else (5, 1)
  let deltaPart : ℝ × ℕ :=
    if option_type = "call" then
      if 0.6 ≤ delta ∧ delta ≤ 0.8 then (20, 0)
      else if 0.4 ≤ delta ∧ delta < 0.6 then (18, 0)
      else if 0.25 ≤ delta ∧ delta < 0.4 then (14, 0)
      else if 0.15 ≤ delta ∧ delta < 0.25 then (8, 0)
      else (3, 1)
    else
      if 0.6 ≤ |delta| ∧ |delta| ≤ 0.8 then (20, 0)
      else if 0.4 ≤ |delta| ∧ |delta| < 0.6 then (18, 0)
      else if 0.25 ≤ |delta| ∧ |delta| < 0.4 then (14, 0)
      else if 0.15 ≤ |delta| ∧ |delta| < 0.25 then (8, 0)
      else (3, 1)
  let time_value_pct := if 0 < price then time_value / (price + 1e-9) * 100 else 0
  let bePart : ℝ × ℕ :=
    if breakeven_pct ≤ 3 then (8, 0)
    else if breakeven_pct ≤ 6 then (6, 0)
    else if breakeven_pct ≤ 10 then (3, 0)
    else (0, 1)
  let tvPart : ℝ × ℕ :=
    if 30 ≤ time_value_pct ∧ time_value_pct ≤ 70 then (7, 0)
    else if time_value_pct < 30 then (4, 0)
    else (2, 1)
  (popPart.1 + volPart.1 + oiPart.1 + spreadPart.1 + ivPart.1 + deltaPart.1
      + bePart.1 + tvPart.1,
    popPart.2 + volPart.2 + oiPart.2 + spreadPart.2 + ivPart.2 + deltaPart.2
      + bePart.2 + tvPart.2)

end OptionsLogic

namespace OptionsLogic

lemma mem_insertDesc {a r : ScoredRow} {l : List ScoredRow} :
    a ∈ insertDesc r l ↔ a = r ∨ a ∈ l := by
  induction l with
  | nil => simp [insertDesc]
  | cons x xs ih =>
    by_cases h : x.overall_score ≤ r.overall_score
    · simp [insertDesc, h]
    · simp [insertDesc, h, ih]
      tauto

lemma mem_sortByScoreDesc {a : ScoredRow} {l : List ScoredRow} :
    a ∈ sortByScoreDesc l ↔ a ∈ l := by
  induction l with
  | nil => simp [sortByScoreDesc]
  | cons x xs ih =>
    simp only [sortByScoreDesc, List.foldr_cons] at *
    rw [mem_insertDesc, ih]
    simp

/-- Every row of the ranked output is the scoring of a chain row that
survived the dropna and the four hard filters. -/
lemma rank_mem_elim {df : List OptionRow} {ot : String} {S dte : ℝ} {r : ScoredRow}
    (h : r ∈ rank_options_logic df ot S dte) :
    ∃ vmin vmax oimin oimax c,
      c ∈ dropnaRequired df ∧
      (0.01 < c.lastPrice ∧ 0 < c.bid ∧ 0 < c.ask) ∧
      (0 < c.impliedVolatility ∧ c.impliedVolatility < 5) ∧
      (10 ≤ c.volume ∧ 50 ≤ c.openInterest) ∧
      spread_pct c ≤ 20 ∧
      r = scoreRow ot S dte vmin vmax oimin oimax c := by
  unfold rank_options_logic at h
  by_cases h0 : (dropnaRequired df).isEmpty
  · simp [h0] at h
  · simp only [h0, Bool.false_eq_true, if_false] at h
    set df1 := (dropnaRequired df).filter
      (fun r => decide (0.01 < r.lastPrice ∧ 0 < r.bid ∧ 0 < r.ask)) with hdf1
    set df2 := df1.filter
      (fun r => decide (0 < r.impliedVolatility ∧ r.impliedVolatility < 5)) with hdf2
    set df3 := df2.filter (fun r => decide (10 ≤ r.volume ∧ 50 ≤ r.openInterest)) with hdf3
    set df4 := df3.filter (fun r => decide (spread_pct r ≤ 20)) with hdf4
    by_cases h4 : df4.isEmpty
    · simp [h4] at h
    · simp only [h4, Bool.false_eq_true, if_false] at h
      rw [mem_sortByScoreDesc] at h
      obtain ⟨c, hc, hr⟩ := List.mem_map.mp h
      refine ⟨_, _, _, _, c, ?_, ?_, ?_, ?_, ?_, hr.symm⟩
      · have := hc
        rw [hdf4] at this
        have h3 := (List.mem_filter.mp this).1
        rw [hdf3] at h3
        have h2 := (List.mem_filter.mp h3).1
        rw [hdf2] at h2
        have h1 := (List.mem_filter.mp h2).1
        rw [hdf1] at h1
        exact (List.mem_filter.mp h1).1
      · have := hc
        rw [hdf4] at this
        have h3 := (List.mem_filter.mp this).1
        rw [hdf3] at h3
        have h2 := (List.mem_filter.mp h3).1
        rw [hdf2] at h2
        have h1 := (List.mem_filter.mp h2).1
        rw [hdf1] at h1
        exact of_decide_eq_true (List.mem_filter.mp h1).2
      · have := hc
        rw [hdf4] at this
        have h3 := (List.mem_filter.mp this).1
        rw [hdf3] at h3
        have h2 := (List.mem_filter.mp h3).1
        rw [hdf2] at h2
        exact of_decide_eq_true (List.mem_filter.mp h2).2
      · have := hc
        rw [hdf4] at this
        have h3 := (List.mem_filter.mp this).1
        rw [hdf3] at h3
        exact of_decide_eq_true (List.mem_filter.mp h3).2
      · have := hc
        rw [hdf4] at this
        exact of_decide_eq_true (List.mem_filter.mp this).2

end OptionsLogic

/-- C3, as stated, is false: with only the 1h interval present (weight
0.1) and strongly rising prices, the claim's weighted score
Σ(signal·weight)/Σ(weight used) equals 1 > 0.15, so the claim calls for
the label Bullish, but `analyze_market_trend` compares the undivided sum
0.1 with the threshold 0.1 and returns Neutral. -/
theorem C3_counterexample :
    0.15 < claimWeightedScore ⟨none, none, none, some [100, 200]⟩ ∧
    Calculations.trend_direction ⟨none, none, none, some [100, 200]⟩ = "Neutral" := by
  have hs : Calculations.trend_score ⟨none, none, none, some [100, 200]⟩ = 0.1 := by
    norm_num [Calculations.trend_score, Calculations.interval_contrib,
      Calculations.interval_score, Calculations.price_change_pct, List.getLastD]
  constructor
  · rw [claimWeightedScore, hs]
    norm_num [Calculations.max_possible_score]
  · rw [Calculations.trend_direction, hs]
    norm_num

/-- C3 (amended): the label of `analyze_market_trend` is decided by the
undivided weighted sum Σ(signal·weight): Bullish exactly when it exceeds
0.1, Bearish exactly when it is below −0.1, Neutral otherwise; the
division by Σ(weight used) only enters the confidence value. -/
theorem C3_amended (td : Calculations.TrendData) :
    (Calculations.trend_direction td = "Bullish" ↔ 0.1 < Calculations.trend_score td) ∧
    (Calculations.trend_direction td = "Bearish" ↔ Calculations.trend_score td < -0.1) ∧
    (Calculations.trend_direction td = "Neutral" ↔
      -0.1 ≤ Calculations.trend_score td ∧ Calculations.trend_score td ≤ 0.1) := by
  unfold Calculations.trend_direction
  split_ifs with h1 h2
  · exact ⟨iff_of_true rfl h1, iff_of_false (by simp) (by linarith),
      iff_of_false (by simp) (by intro h; linarith [h.2])⟩
  · exact ⟨iff_of_false (by simp) h1, iff_of_true rfl h2,
      iff_of_false (by simp) (by intro h; linarith [h.1])⟩
  · exact ⟨iff_of_false (by simp) h1, iff_of_false (by simp) h2,
      iff_of_true rfl ⟨le_of_not_lt h2, le_of_not_lt h1⟩⟩

namespace OptionsLogic

/-- Evaluation of the ranking pipeline on a one-row chain whose row passes
all four hard filters. -/
lemma rank_singleton (k lp b a v oi iv : ℝ) (d : Option ℝ) (ot : String) (S dte : ℝ)
    (h1 : 0.01 < lp ∧ 0 < b ∧ 0 < a) (h2 : 0 < iv ∧ iv < 5) (h3 : 10 ≤ v ∧ 50 ≤ oi)
    (h4 : spread_pct ⟨k, lp, b, a, v, oi, iv, d⟩ ≤ 20) :
    rank_options_logic [⟨some k, some lp, some b, some a, some v, some oi, some iv, d⟩] ot S dte
      = [scoreRow ot S dte v v oi oi ⟨k, lp, b, a, v, oi, iv, d⟩] := by
  unfold rank_options_logic
  simp [dropnaRequired, List.filter, h1, h2, h3, h4, h1.1, h1.2.1, h1.2.2, h2.1, h2.2,
    h3.1, h3.2, sortByScoreDesc, insertDesc, listMin, listMax]

end OptionsLogic

/-- C2, as stated, is false for the ranked table: with DTE = 0 (a violated
precondition) `calculate_pop` does return the NaN sentinel, but
`rank_options_logic` runs `df['POP'].fillna(0)`, so the POP field of the
scored row is exactly 0 — not a sentinel distinct from zero. -/
theorem C2_counterexample :
    Calculations.calculate_pop "call" 100 1 100 1 0 = none ∧
    (OptionsLogic.rank_options_logic
        [⟨some 100, some 1, some 1, some 1, some 10, some 50, some 1, none⟩]
        "call" 100 0).map (fun r => r.pop) = [0] := by
  have hpop : Calculations.calculate_pop "call" 100 1 100 1 0 = none := by
    unfold Calculations.calculate_pop
    norm_num
  refine ⟨hpop, ?_⟩
  rw [OptionsLogic.rank_singleton 100 1 1 1 10 50 1 none "call" 100 0
    (by norm_num) (by norm_num) (by norm_num)
    (by norm_num [OptionsLogic.spread_pct, OptionsLogic.mid_price])]
  simp [OptionsLogic.scoreRow, hpop]

/-- C2 (amended): `calculate_pop` itself returns the explicit NaN sentinel
(`none`, distinct from zero, no exception) whenever a precondition is
violated, but the POP column carried by the rows that `rank_options_logic`
scores is `fillna(0)`-ed: it holds 0, not the sentinel, whenever
`calculate_pop` was undefined. -/
theorem C2_amended :
    (∀ (ot : String) (k prem S iv dte : ℝ), dte ≤ 0 ∨ iv ≤ 0 ∨ S ≤ 0 ∨ k ≤ 0 →
      Calculations.calculate_pop ot k prem S iv dte = none) ∧
    (∀ (df : List OptionsLogic.OptionRow) (ot : String) (S dte : ℝ)
        (r : OptionsLogic.ScoredRow), r ∈ OptionsLogic.rank_options_logic df ot S dte →
      r.pop = (Calculations.calculate_pop ot r.row.strike r.row.lastPrice S
        r.row.impliedVolatility dte).getD 0) := by
  constructor
  · intro ot k prem S iv dte h
    unfold Calculations.calculate_pop
    rw [if_pos h]
  · intro df ot S dte r hr
    obtain ⟨vmin, vmax, oimin, oimax, c, -, -, -, -, -, rfl⟩ := OptionsLogic.rank_mem_elim hr
    rfl

/-- Concrete instantiation of C2_amended: DTE = 0 yields the sentinel from
`calculate_pop`, and a scored row of the one-row chain above carries
POP = 0. -/
theorem C2_amended_witness :
    Calculations.calculate_pop "put" 50 2 80 (1/2) 0 = none :=
  C2_amended.1 "put" 50 2 80 (1/2) 0 (Or.inl le_rfl)

/-- C4, as stated, is false on the spread condition: the code computes
`spread_pct = (ask − bid)/(mid + 1e-9)·100` and keeps rows with
`spread_pct ≤ 20`, so a row whose spread exceeds 20% of the true mid-price
by less than the `1e-9` slack still appears in the scored output.  With
bid = 1 and ask = 1 + 2/9 + 1e-10 the spread is strictly greater than 20%
of the mid-price, yet the row survives and is scored. -/
theorem C4_counterexample :
    (OptionsLogic.rank_options_logic
        [⟨some 100, some 1, some 1, some (1 + 2/9 + 1e-10), some 10, some 50, some 1, none⟩]
        "call" 100 0).map (fun r => (r.row.bid, r.row.ask))
      = [((1 : ℝ), (1 + 2/9 + 1e-10 : ℝ))] ∧
    ((1 + 2/9 + 1e-10) - 1 : ℝ) > 0.2 * ((1 + (1 + 2/9 + 1e-10)) / 2) := by
  constructor
  · rw [OptionsLogic.rank_singleton 100 1 1 (1 + 2/9 + 1e-10) 10 50 1 none "call" 100 0
      (by norm_num) (by norm_num) (by norm_num)
      (by norm_num [OptionsLogic.spread_pct, OptionsLogic.mid_price])]
    simp [OptionsLogic.scoreRow]
  · norm_num

/-- C4 (amended): every row of the scored output has volume ≥ 10, open
interest ≥ 50, and `spread_pct ≤ 20`, where `spread_pct` is the source's
`(ask − bid)/(mid_price + 1e-9)·100` — i.e. the spread never exceeds 20%
of (mid-price + 1e-9); rows failing any of these are dropped before
scoring. -/
theorem C4_amended (df : List OptionsLogic.OptionRow) (ot : String) (S dte : ℝ)
    (r : OptionsLogic.ScoredRow) (h : r ∈ OptionsLogic.rank_options_logic df ot S dte) :
    10 ≤ r.row.volume ∧ 50 ≤ r.row.openInterest ∧ OptionsLogic.spread_pct r.row ≤ 20 := by
  obtain ⟨vmin, vmax, oimin, oimax, c, -, -, -, h3, h4, rfl⟩ := OptionsLogic.rank_mem_elim h
  exact ⟨h3.1, h3.2, h4⟩

/-- Concrete instantiation of C4_amended on a one-row chain. -/
theorem C4_amended_witness :
    10 ≤ (OptionsLogic.scoreRow "call" 100 0 10 10 50 50
        ⟨100, 1, 1, 1, 10, 50, 1, none⟩).row.volume ∧
    50 ≤ (OptionsLogic.scoreRow "call" 100 0 10 10 50 50
        ⟨100, 1, 1, 1, 10, 50, 1, none⟩).row.openInterest ∧
    OptionsLogic.spread_pct (OptionsLogic.scoreRow "call" 100 0 10 10 50 50
        ⟨100, 1, 1, 1, 10, 50, 1, none⟩).row ≤ 20 := by
  apply C4_amended [⟨some 100, some 1, some 1, some 1, some 10, some 50, some 1, none⟩]
    "call" 100 0
  rw [OptionsLogic.rank_singleton 100 1 1 1 10 50 1 none "call" 100 0
    (by norm_num) (by norm_num) (by norm_num)
    (by norm_num [OptionsLogic.spread_pct, OptionsLogic.mid_price])]
  simp

namespace OptionsLogic

lemma qualityTier_iff (s : ℝ) :
    (qualityTier s = some "Poor" ↔ 0 < s ∧ s ≤ 0.4) ∧
    (qualityTier s = some "Fair" ↔ 0.4 < s ∧ s ≤ 0.6) ∧
    (qualityTier s = some "Good" ↔ 0.6 < s ∧ s ≤ 0.75) ∧
    (qualityTier s = some "Excellent" ↔ 0.75 < s ∧ s ≤ 1) := by
  unfold qualityTier
  split_ifs with h1 h2 h3 h4
  · exact ⟨iff_of_true rfl h1,
      iff_of_false (by simp) (fun hc => by linarith [h1.2, hc.1]),
      iff_of_false (by simp) (fun hc => by linarith [h1.2, hc.1]),
      iff_of_false (by simp) (fun hc => by linarith [h1.2, hc.1])⟩
  · exact ⟨iff_of_false (by simp) (fun hc => by linarith [hc.2, h2.1]),
      iff_of_true rfl h2,
      iff_of_false (by simp) (fun hc => by linarith [h2.2, hc.1]),
      iff_of_false (by simp) (fun hc => by linarith [h2.2, hc.1])⟩
  · exact ⟨iff_of_false (by simp) (fun hc => by linarith [hc.2, h3.1]),
      iff_of_false (by simp) (fun hc => by linarith [hc.2, h3.1]),
      iff_of_true rfl h3,
      iff_of_false (by simp) (fun hc => by linarith [h3.2, hc.1])⟩
  · exact ⟨iff_of_false (by simp) (fun hc => by linarith [hc.2, h4.1]),
      iff_of_false (by simp) (fun hc => by linarith [hc.2, h4.1]),
      iff_of_false (by simp) (fun hc => by linarith [hc.2, h4.1]),
      iff_of_true rfl h4⟩
  · exact ⟨iff_of_false (by simp) h1, iff_of_false (by simp) h2,
      iff_of_false (by simp) h3, iff_of_false (by simp) h4⟩

end OptionsLogic

/-- C5, as stated, is false: `pd.cut` uses left-open right-closed bins,
so a row whose overall score is exactly 0.4 is tiered Poor (not Fair), and
a score of exactly 0 falls in no bin at all (NaN tier, not Poor).  The
one-row chain below is crafted so that its overall score is exactly 0.4. -/
theorem C5_counterexample :
    (OptionsLogic.rank_options_logic
        [⟨some (287/3 - 1e-9), some 1, some 1, some 1, some 10, some 50, some 1, none⟩]
        "call" (100 - 1e-9) 0).map (fun r => (r.overall_score, r.quality_tier))
      = [((0.4 : ℝ), some "Poor")] ∧
    OptionsLogic.qualityTier 0 = none := by
  have hpop : Calculations.calculate_pop "call" (287/3 - 1e-9) 1 (100 - 1e-9) 1 0 = none := by
    unfold Calculations.calculate_pop
    norm_num
  have ha : |(10/3 : ℝ)| = 10/3 := abs_of_nonneg (by norm_num)
  have hb : |(10/3 : ℝ) - 5| = 5/3 := by
    rw [abs_of_nonpos (by norm_num)]
    norm_num
  have hc : |(5/3 : ℝ)| = 5/3 := abs_of_nonneg (by norm_num)
  have hover : (OptionsLogic.scoreRow "call" (100 - 1e-9) 0 10 10 50 50
      ⟨287/3 - 1e-9, 1, 1, 1, 10, 50, 1, none⟩).overall_score = 0.4 := by
    simp only [OptionsLogic.scoreRow, hpop]
    norm_num [OptionsLogic.calculate_intrinsic_value, OptionsLogic.calculate_time_value,
      OptionsLogic.calculate_breakeven, OptionsLogic.spread_pct, OptionsLogic.mid_price,
      ha, hb, hc]
  have htier : (OptionsLogic.scoreRow "call" (100 - 1e-9) 0 10 10 50 50
      ⟨287/3 - 1e-9, 1, 1, 1, 10, 50, 1, none⟩).quality_tier = some "Poor" := by
    have he : (OptionsLogic.scoreRow "call" (100 - 1e-9) 0 10 10 50 50
        ⟨287/3 - 1e-9, 1, 1, 1, 10, 50, 1, none⟩).quality_tier
        = OptionsLogic.qualityTier ((OptionsLogic.scoreRow "call" (100 - 1e-9) 0 10 10 50 50
          ⟨287/3 - 1e-9, 1, 1, 1, 10, 50, 1, none⟩).overall_score) := rfl
    rw [he, hover]
    unfold OptionsLogic.qualityTier
    split_ifs with h1 h2 h3 h4 <;>
      first
        | rfl
        | exact absurd ⟨by norm_num, by norm_num⟩ h1
  constructor
  · rw [OptionsLogic.rank_singleton (287/3 - 1e-9) 1 1 1 10 50 1 none "call" (100 - 1e-9) 0
      (by norm_num) (by norm_num) (by norm_num)
      (by norm_num [OptionsLogic.spread_pct, OptionsLogic.mid_price])]
    simp [hover, htier]
  · unfold OptionsLogic.qualityTier
    split_ifs with h1 h2 h3 h4
    · exact absurd h1.1 (by norm_num)
    · exact absurd h2.1 (by norm_num)
    · exact absurd h3.1 (by norm_num)
    · exact absurd h4.1 (by norm_num)
    · rfl

/-- C5 (amended): the quality tier of every scored row is given by
left-open, right-closed intervals: Poor on (0, 0.4], Fair on (0.4, 0.6],
Good on (0.6, 0.75], Excellent on (0.75, 1]; a score of exactly 0.4 is
tiered Poor, and a score of exactly 0 (or any score outside (0, 1]) gets
no tier at all. -/
theorem C5_amended (df : List OptionsLogic.OptionRow) (ot : String) (S dte : ℝ)
    (r : OptionsLogic.ScoredRow) (h : r ∈ OptionsLogic.rank_options_logic df ot S dte) :
    (r.quality_tier = some "Poor" ↔ 0 < r.overall_score ∧ r.overall_score ≤ 0.4) ∧
    (r.quality_tier = some "Fair" ↔ 0.4 < r.overall_score ∧ r.overall_score ≤ 0.6) ∧
    (r.quality_tier = some "Good" ↔ 0.6 < r.overall_score ∧ r.overall_score ≤ 0.75) ∧
    (r.quality_tier = some "Excellent" ↔ 0.75 < r.overall_score ∧ r.overall_score ≤ 1) := by
  obtain ⟨vmin, vmax, oimin, oimax, c, -, -, -, -, -, rfl⟩ := OptionsLogic.rank_mem_elim h
  exact OptionsLogic.qualityTier_iff _

/-- Concrete instantiation of C5_amended on a one-row chain. -/
theorem C5_amended_witness :
    ((OptionsLogic.scoreRow "call" 100 0 10 10 50 50
        ⟨100, 1, 1, 1, 10, 50, 1, none⟩).quality_tier = some "Poor" ↔
      0 < (OptionsLogic.scoreRow "call" 100 0 10 10 50 50
        ⟨100, 1, 1, 1, 10, 50, 1, none⟩).overall_score ∧
      (OptionsLogic.scoreRow "call" 100 0 10 10 50 50
        ⟨100, 1, 1, 1, 10, 50, 1, none⟩).overall_score ≤ 0.4) ∧
    ((OptionsLogic.scoreRow "call" 100 0 10 10 50 50
        ⟨100, 1, 1, 1, 10, 50, 1, none⟩).quality_tier = some "Fair" ↔
      0.4 < (OptionsLogic.scoreRow "call" 100 0 10 10 50 50
        ⟨100, 1, 1, 1, 10, 50, 1, none⟩).overall_score ∧
      (OptionsLogic.scoreRow "call" 100 0 10 10 50 50
        ⟨100, 1, 1, 1, 10, 50, 1, none⟩).overall_score ≤ 0.6) ∧
    ((OptionsLogic.scoreRow "call" 100 0 10 10 50 50
        ⟨100, 1, 1, 1, 10, 50, 1, none⟩).quality_tier = some "Good" ↔
      0.6 < (OptionsLogic.scoreRow "call" 100 0 10 10 50 50
        ⟨100, 1, 1, 1, 10, 50, 1, none⟩).overall_score ∧
      (OptionsLogic.scoreRow "call" 100 0 10 10 50 50
        ⟨100, 1, 1, 1, 10, 50, 1, none⟩).overall_score ≤ 0.75) ∧
    ((OptionsLogic.scoreRow "call" 100 0 10 10 50 50
        ⟨100, 1, 1, 1, 10, 50, 1, none⟩).quality_tier = some "Excellent" ↔
      0.75 < (OptionsLogic.scoreRow "call" 100 0 10 10 50 50
        ⟨100, 1, 1, 1, 10, 50, 1, none⟩).overall_score ∧
      (OptionsLogic.scoreRow "call" 100 0 10 10 50 50
        ⟨100, 1, 1, 1, 10, 50, 1, none⟩).overall_score ≤ 1) := by
  apply C5_amended [⟨some 100, some 1, some 1, some 1, some 10, some 50, some 1, none⟩]
    "call" 100 0
  rw [OptionsLogic.rank_singleton 100 1 1 1 10 50 1 none "call" 100 0
    (by norm_num) (by norm_num) (by norm_num)
    (by norm_num [OptionsLogic.spread_pct, OptionsLogic.mid_price])]
  simp

/-- C6, as stated, is false for the narrative analyzer: `rank_options_logic`
does fill a missing delta with 0.5, but `analyze_single_option_details`
replaces a missing delta with 0.0 (line 188).  On the same contract the
analyzer therefore scores a missing delta like delta = 0 (far OTM: 3 points
and a red flag), not like delta = 0.5 (18 points): total (44, 2 red flags)
versus (59, 1 red flag) for the otherwise identical row with delta 0.5. -/
theorem C6_counterexample :
    OptionsLogic.analyze_single_option_score "call" 100 0 ⟨100, 1, 1, 1, 100, 100, 0.3, none⟩
      = (44, 2) ∧
    OptionsLogic.analyze_single_option_score "call" 100 0 ⟨100, 1, 1, 1, 100, 100, 0.3, some 0.5⟩
      = (59, 1) := by
  have hpop : Calculations.calculate_pop "call" 100 1 100 0.3 0 = none := by
    unfold Calculations.calculate_pop
    norm_num
  have habs : |(100 + 1 : ℝ) - 100| = 1 := by
    rw [abs_of_nonneg (by norm_num)]
    norm_num
  constructor <;>
  · simp only [OptionsLogic.analyze_single_option_score, hpop,
      OptionsLogic.calculate_intrinsic_value, OptionsLogic.calculate_time_value,
      OptionsLogic.calculate_breakeven]
    norm_num [habs]

/-- C6 (amended): in `rank_options_logic` a missing delta is treated as
0.5, but in `analyze_single_option_details` a missing delta is treated as
0.0 — the analyzer behaves exactly as if the contract carried delta = 0. -/
theorem C6_amended :
    (∀ (df : List OptionsLogic.OptionRow) (ot : String) (S dte : ℝ)
        (r : OptionsLogic.ScoredRow), r ∈ OptionsLogic.rank_options_logic df ot S dte →
        r.row.delta = none → r.delta_filled = 0.5) ∧
    (∀ (ot : String) (S dte : ℝ) (c : OptionsLogic.ChainRow), c.delta = none →
        OptionsLogic.analyze_single_option_score ot S dte c
          = OptionsLogic.analyze_single_option_score ot S dte
              ⟨c.strike, c.lastPrice, c.bid, c.ask, c.volume, c.openInterest,
                c.impliedVolatility, some 0⟩) := by
  constructor
  · intro df ot S dte r hr hd
    obtain ⟨vmin, vmax, oimin, oimax, c, -, -, -, -, -, rfl⟩ := OptionsLogic.rank_mem_elim hr
    have hcd : c.delta = none := hd
    show Option.getD c.delta 0.5 = 0.5
    rw [hcd]
    rfl
  · intro ot S dte c hd
    simp [OptionsLogic.analyze_single_option_score, hd]

/-- Concrete instantiation of C6_amended: a one-row ranked chain with
missing delta is scored with delta 0.5, and the analyzer treats a
missing-delta row exactly like the same row with delta = 0. -/
theorem C6_amended_witness :
    (OptionsLogic.scoreRow "call" 100 0 10 10 50 50
        ⟨100, 1, 1, 1, 10, 50, 1, none⟩).delta_filled = 0.5 ∧
    OptionsLogic.analyze_single_option_score "call" 100 0 ⟨100, 1, 1, 1, 100, 100, 0.3, none⟩
      = OptionsLogic.analyze_single_option_score "call" 100 0
          ⟨100, 1, 1, 1, 100, 100, 0.3, some 0⟩ := by
  constructor
  · apply C6_amended.1 [⟨some 100, some 1, some 1, some 1, some 10, some 50, some 1, none⟩]
      "call" 100 0
    · rw [OptionsLogic.rank_singleton 100 1 1 1 10 50 1 none "call" 100 0
        (by norm_num) (by norm_num) (by norm_num)
        (by norm_num [OptionsLogic.spread_pct, OptionsLogic.mid_price])]
      simp
    · rfl
  · exact C6_amended.2 "call" 100 0 ⟨100, 1, 1, 1, 100, 100, 0.3, none⟩ rfl

/-- C8, as stated, is false for the calculations.py VWAP: its division is
`CumVolPrice / (CumVol + 1e-10)`, so on a single bar with volume 1 and
typical price 1 the VWAP is `1/(1 + 1e-10)`, not exactly the typical
price. -/
theorem C8_counterexample :
    Calculations.calculate_vwap [⟨1, 1, 1, some 1⟩] = [some (1 / (1 + 1e-10))] ∧
    ((1 : ℝ) / (1 + 1e-10)) ≠ (1 + 1 + 1) / 3 := by
  constructor
  · simp [Calculations.calculate_vwap, cumsum, ffill, bfill, List.scanl]
    norm_num
  · norm_num

/-- C8 (amended): for a single bar with positive volume, the
calculations.py VWAP equals `tp·v/(v + 1e-10)` — infinitesimally below the
typical price tp and equal to it only when tp = 0 — while the TradeBot_V1
VWAP (which has no `1e-10` term) equals the typical price exactly. -/
theorem C8_amended (h l c v : ℝ) (hv : 0 < v) :
    Calculations.calculate_vwap [⟨h, l, c, some v⟩]
      = [some ((h + l + c) / 3 * v / (v + 1e-10))] ∧
    TradeBot.calculate_vwap [⟨h, l, c, v⟩] = [some ((h + l + c) / 3)] := by
  have hv0 : v ≠ 0 := ne_of_gt hv
  constructor
  · simp [Calculations.calculate_vwap, cumsum, ffill, bfill, List.scanl, hv0]
  · simp [TradeBot.calculate_vwap, cumsum, ffill, bfill, List.scanl, hv0]

/-- Concrete instantiation of C8_amended at a bar (2, 3, 4, volume 5). -/
theorem C8_amended_witness :
    Calculations.calculate_vwap [⟨2, 3, 4, some 5⟩]
      = [some ((2 + 3 + 4) / 3 * 5 / (5 + 1e-10))] ∧
    TradeBot.calculate_vwap [⟨2, 3, 4, 5⟩] = [some ((2 + 3 + 4) / 3)] :=
  C8_amended 2 3 4 5 (by norm_num)

/-- C7, as stated, is false: for a Close column with exactly one valid
close — fewer than 2 — `calculate_technical_indicators` does not return
empty series; it returns series filled with the neutral defaults (RSI 50,
MACD 0, signal 0). -/
theorem C7_counterexample :
    (([some (5 : ℝ)] : List (Option ℝ)).filterMap id).length < 2 ∧
    Calculations.calculate_technical_indicators [some 5] = ([50], [0], [0]) ∧
    Calculations.calculate_technical_indicators [some 5] ≠ ([], [], []) := by
  refine ⟨by simp, ?_, ?_⟩
  · simp [Calculations.calculate_technical_indicators]
  · simp [Calculations.calculate_technical_indicators]

/-- C7 (amended): the indicator computation never raises, and for fewer
than 2 valid closes it behaves as follows — with zero valid closes all
three series are empty; with exactly one valid close it returns
defined-but-neutral defaults instead: RSI constantly 50 and MACD / signal
constantly 0, each of the input column's length. -/
theorem C7_amended (close : List (Option ℝ)) :
    ((close.filterMap id).length = 0 →
      Calculations.calculate_technical_indicators close = ([], [], [])) ∧
    ((close.filterMap id).length = 1 →
      Calculations.calculate_technical_indicators close =
        (List.replicate close.length 50, List.replicate close.length 0,
          List.replicate close.length 0)) := by
  constructor
  · intro h0
    have hnil : close.filterMap id = [] := List.length_eq_zero.mp h0
    have hall : close.all (fun o => o.isNone) = true := by
      rw [List.all_eq_true]
      intro x hx
      have hx0 := (List.filterMap_eq_nil_iff.mp hnil) x hx
      simp [Option.isNone_iff_eq_none]
      exact hx0
    unfold Calculations.calculate_technical_indicators
    rw [hall]
    simp
  · intro h1
    have hnonnil : close.filterMap id ≠ [] := by
      intro hc
      rw [hc] at h1
      simp at h1
    have hallfalse : close.all (fun o => o.isNone) = false := by
      rcases hb : close.all (fun o => o.isNone) with - | -
      · rfl
      · exfalso
        apply hnonnil
        apply List.filterMap_eq_nil_iff.mpr
        intro x hx
        have := (List.all_eq_true.mp hb) x hx
        simpa [Option.isNone_iff_eq_none] using this
    have hnotempty : close.isEmpty = false := by
      cases close with
      | nil => simp at h1
      | cons x xs => rfl
    have hcp : (close.filterMap id).isEmpty = false := by
      rcases hfm : close.filterMap id with - | -
      · exact absurd hfm hnonnil
      · rfl
    unfold Calculations.calculate_technical_indicators
    simp only [hnotempty, hallfalse, hcp, h1]
    simp

/-- Concrete instantiation of C7_amended: a two-entry column (one NaN, one
valid close) gets RSI [50, 50] and MACD / signal [0, 0]. -/
theorem C7_amended_witness :
    Calculations.calculate_technical_indicators [none, some 5]
      = ([50, 50], [0, 0], [0, 0]) := by
  have h := (C7_amended [none, some 5]).2 (by simp)
  simpa using h

namespace Calculations

/-- On valid inputs the calculations.py POP for a call is the (clip-free,
by the bounds of Φ) normal probability at the strike-based d2. -/
lemma calculate_pop_call_eq (k prem S iv dte : ℝ) (hd : 0 < dte) (hiv : 0 < iv)
    (hS : 0 < S) (hk : 0 < k) :
    calculate_pop "call" k prem S iv dte
      = some (normCdf ((Real.log (S / k) + (0.05 + 0.5 * iv ^ 2) * (dte / 365))
          / (iv * Real.sqrt (dte / 365)) - iv * Real.sqrt (dte / 365))) := by
  have hsst : iv * Real.sqrt (dte / 365) ≠ 0 := by positivity
  have hiv0 : iv ≠ 0 := ne_of_gt hiv
  have hsd : Real.sqrt dte ≠ 0 := by positivity
  unfold calculate_pop
  rw [if_neg (by push_neg; exact ⟨hd, hiv, hS, hk⟩)]
  simp [hsst, hiv0, hsd, normCdf_clip]

end Calculations

namespace TradeBot

end TradeBot

/-- C10 (confirmed): holding option type (call), strike, premium, IV and
DTE fixed with valid preconditions, the POP of calculations.py's
`calculate_pop` is strictly increasing in the current underlying price
(the clip never bites since Φ already lands in [0,1]). -/
theorem C10_pop_strict_mono (k prem iv dte S1 S2 : ℝ) (hd : 0 < dte) (hiv : 0 < iv)
    (hk : 0 < k) (h1 : 0 < S1) (h12 : S1 < S2) :
    ∃ p1 p2, Calculations.calculate_pop "call" k prem S1 iv dte = some p1 ∧
      Calculations.calculate_pop "call" k prem S2 iv dte = some p2 ∧ p1 < p2 := by
  refine ⟨_, _, Calculations.calculate_pop_call_eq k prem S1 iv dte hd hiv h1 hk,
    Calculations.calculate_pop_call_eq k prem S2 iv dte hd hiv (h1.trans h12) hk, ?_⟩
  apply normCdf_strictMono
  have hsst : (0:ℝ) < iv * Real.sqrt (dte / 365) := by positivity
  have hlog : Real.log (S1 / k) < Real.log (S2 / k) :=
    Real.log_lt_log (by positivity) ((div_lt_div_iff_of_pos_right hk).mpr h12)
  apply sub_lt_sub_right
  exact (div_lt_div_iff_of_pos_right hsst).mpr (by linarith)

/-- Concrete instantiation of C10_pop_strict_mono at prices 95 < 110. -/
theorem C10_pop_strict_mono_witness :
    ∃ p1 p2, Calculations.calculate_pop "call" 100 2 95 (3/10) 30 = some p1 ∧
      Calculations.calculate_pop "call" 100 2 110 (3/10) 30 = some p2 ∧ p1 < p2 :=
  C10_pop_strict_mono 100 2 (3/10) 30 95 110 (by norm_num) (by norm_num) (by norm_num)
    (by norm_num) (by norm_num)

/-- C9 (confirmed): in the running deduplication of `find_pivots`, a
candidate within the tolerance (0.5% of the last accepted level, or of the
series mean when that level is 0) replaces the last accepted level by the
average of the two, a candidate beyond the tolerance is appended, and on a
series whose raw supports are 100.00 and 100.30 the supports collapse to
the single merged level 100.15. -/
theorem C9_pivot_dedup :
    (∀ (mean last val : ℝ) (rest : List ℝ),
        |val - last| ≤ (if last = 0 then mean else last) * 0.005 →
        Calculations.mergeStep mean (last :: rest) val = ((last + val) / 2) :: rest) ∧
    (∀ (mean last val : ℝ) (rest : List ℝ),
        (if last = 0 then mean else last) * 0.005 < |val - last| →
        Calculations.mergeStep mean (last :: rest) val = val :: last :: rest) ∧
    (Calculations.find_pivots [101, 100.3, 101, 102, 101, 100, 101] 5).1 = [100.15] := by
  refine ⟨?_, ?_, ?_⟩
  · intro mean last val rest h
    simp only [Calculations.mergeStep]
    rw [if_neg (not_lt.mpr h)]
  · intro mean last val rest h
    simp only [Calculations.mergeStep]
    rw [if_pos h]
  · have hcand : Calculations.pivotCandidates true 5 [101, 1003/10, 101, 102, 101, 100, 101]
        = [1003/10, 100] := by
      norm_num [Calculations.pivotCandidates, Calculations.rollingWindow, listMin,
        List.range_succ, List.filterMap_append, List.filterMap_cons, List.get?]
    have hded : ([1003/10, 100] : List ℝ).dedup = [1003/10, 100] := by
      rw [List.dedup_cons_of_not_mem (by norm_num), List.dedup_cons_of_not_mem (by norm_num),
        List.dedup_nil]
    have habs : |(1003/10 : ℝ) - 100| = 3/10 := by
      rw [abs_of_nonneg (by norm_num)]
      norm_num
    have habs2 : |(3/10 : ℝ)| = 3/10 := abs_of_nonneg (by norm_num)
    unfold Calculations.find_pivots
    norm_num [hcand, hded, sortAsc, insertAsc, Calculations.mergeStep, habs, habs2]

/-- Concrete instantiation of C9_pivot_dedup: 100.3 lies within 0.5% of
the accepted level 100 and is merged into the average, while 103 lies
beyond the tolerance and is appended. -/
theorem C9_pivot_dedup_witness :
    Calculations.mergeStep 0 [100] 100.3 = [(100 + 100.3) / 2] ∧
    Calculations.mergeStep 0 [100] 103 = [103, 100] := by
  constructor
  · apply C9_pivot_dedup.1
    rw [if_neg (by norm_num : ¬(100:ℝ) = 0), abs_of_nonneg (by norm_num)]
    norm_num
  · apply C9_pivot_dedup.2.1
    rw [if_neg (by norm_num : ¬(100:ℝ) = 0), abs_of_nonneg (by norm_num)]
    norm_num

/-- Concrete instantiation of C3_amended on a trend input with rising 5m
closes and flat 15m/30m closes. -/
theorem C3_amended_witness :
    (Calculations.trend_direction ⟨some [100, 103], some [100, 100], some [100, 100], none⟩
        = "Bullish" ↔
      0.1 < Calculations.trend_score
        ⟨some [100, 103], some [100, 100], some [100, 100], none⟩) ∧
    (Calculations.trend_direction ⟨some [100, 103], some [100, 100], some [100, 100], none⟩
        = "Bearish" ↔
      Calculations.trend_score ⟨some [100, 103], some [100, 100], some [100, 100], none⟩
        < -0.1) ∧
    (Calculations.trend_direction ⟨some [100, 103], some [100, 100], some [100, 100], none⟩
        = "Neutral" ↔
      -0.1 ≤ Calculations.trend_score ⟨some [100, 103], some [100, 100], some [100, 100], none⟩
        ∧ Calculations.trend_score ⟨some [100, 103], some [100, 100], some [100, 100], none⟩
          ≤ 0.1) :=
  C3_amended ⟨some [100, 103], some [100, 100], some [100, 100], none⟩
